import Mathlib

/-!
Shallow embedding of `src/spectrum.py`, a command-line audio utility that
reads an audio file, applies optional processing steps (pre-emphasis,
peak normalization; the other advertised steps are `pass` placeholders),
and writes the result.

Audio samples are modelled as exact rationals (`ℚ`), buffers as `List ℚ`.
The Python options dictionary is modelled as an association list from
`String` keys to Python-like values (`OptVal`), with `dict.get` semantics:
a missing key reads as `None`, and truthiness follows Python (None and
False are falsy, a number is truthy iff nonzero).

The two library transforms the program calls, `librosa.effects.preemphasis`
and `librosa.util.normalize`, are not part of the repository; they are
modelled from the spec's words (see their doc comments). Everything else
is translated directly from `src/spectrum.py`.
-/

namespace Spectrum

/-- A Python value that can appear in the options dictionary of
`process_audio`: `None`, a bool, or a number. -/
inductive OptVal where
  | pynone : OptVal
  | pybool : Bool → OptVal
  | pynum : ℚ → OptVal
deriving DecidableEq

/-- The options dictionary, as an association list (first binding wins,
matching a Python dict in which each key occurs once). -/
abbrev Options := List (String × OptVal)

/-- Python `options.get(k)`: the stored value, or `None` when the key is
absent. -/
def pyGet (opts : Options) (k : String) : OptVal :=
  (opts.lookup k).getD OptVal.pynone

/-- Python `options.get(k, d)`: the stored value, or the default `d` only
when the key is absent (a stored `None` is returned as is). -/
def pyGetD (opts : Options) (k : String) (d : OptVal) : OptVal :=
  (opts.lookup k).getD d

/-- Python truthiness of an option value: `None` and `False` are falsy,
`True` is truthy, a number is truthy iff it is nonzero. -/
def truthy : OptVal → Bool
  | OptVal.pynone => false
  | OptVal.pybool b => b
  | OptVal.pynum q => decide (q ≠ 0)

/-- Numeric coercion of an option value, as Python applies it to the
rolloff frequency: a bool is an int (`True = 1`, `False = 0`), a number is
itself, and `None` has no numeric value (Python raises `TypeError` when it
is divided by the sample rate). -/
def numOf : OptVal → Option ℚ
  | OptVal.pynone => none
  | OptVal.pybool b => some (if b then 1 else 0)
  | OptVal.pynum q => some q

/-- Maximum absolute sample of a buffer (`0` for the empty buffer). -/
def peak (xs : List ℚ) : ℚ :=
  (xs.map (fun x => |x|)).foldr max 0

/-- Modelled from the spec: `librosa.util.normalize` is an external library
function, not in the repository. The spec: "Peak normalization: rescaling a
signal so its maximum absolute amplitude equals a target value (here, 1.0)."
Modelled as dividing every sample by the peak. (Division by a zero peak is
`0` in `ℚ`, so an all-zero buffer comes back unchanged, which also matches
the library's below-threshold behaviour of leaving tiny signals alone.) -/
def normalize (xs : List ℚ) : List ℚ :=
  xs.map (fun x => x / peak xs)

/-- Modelled from the spec: `librosa.effects.preemphasis` is an external
library function, not in the repository. The spec: "Pre-emphasis: a
first-order high-pass filter boosting higher frequencies relative to a
coefficient derived from a rolloff frequency." Modelled as the standard
first-order pre-emphasis filter `y[n] = x[n] - coef * x[n-1]` with virtual
sample `x[-1] = 0`. -/
def preemphasis (xs : List ℚ) (coef : ℚ) : List ℚ :=
  (xs.zip (0 :: xs)).map (fun p => p.1 - coef * p.2)

/-- The pre-emphasis coefficient computed at `src/spectrum.py:61-62`:
`rolloff_freq / sample_rate`, where `rolloff_freq` is
`options.get("rolloff_freq", 0.1 * sample_rate)`. A non-numeric stored
rolloff value (Python `None`) makes the division raise `TypeError`. -/
def coefOf (opts : Options) (sr : ℚ) : Except String ℚ :=
  match numOf (pyGetD opts "rolloff_freq" (OptVal.pynum (sr / 10))) with
  | some rf => Except.ok (rf / sr)
  | none => Except.error "TypeError: unsupported operand type(s) for /"

/-- Translation of `process_audio` (`src/spectrum.py:43-78`).
The `noise_reduction`, `bass_boost`, `treble_boost` and `compress` branches
are `pass` placeholders in the source and touch nothing, so they do not
appear in the data flow: only the speech-emphasis step (line 60-62) and the
normalization step (line 71-72) transform the buffer, in that order. -/
def process_audio (audio_data : List ℚ) (sample_rate : ℚ) (options : Options) :
    Except String (List ℚ) :=
  -- if options.get("noise_reduction"): pass
  -- if options.get("speech_emphasis"): audio_data = preemphasis(audio_data, rolloff/sr)
  let step1 : Except String (List ℚ) :=
    if truthy (pyGet options "speech_emphasis") then
      match coefOf options sample_rate with
      | Except.ok c => Except.ok (preemphasis audio_data c)
      | Except.error e => Except.error e
    else Except.ok audio_data
  -- if options.get("bass_boost"): pass / elif options.get("treble_boost"): pass
  match step1 with
  | Except.error e => Except.error e
  | Except.ok a1 =>
      -- if options.get("normalize"): audio_data = normalize(audio_data)
      -- if options.get("compress"): pass
      Except.ok (if truthy (pyGet options "normalize") then normalize a1 else a1)

/-- Spec-side pipeline step: apply pre-emphasis iff the `speech_emphasis`
option is truthy (written from the spec's words, for comparison with
`process_audio`). -/
def emphasis_step (audio : List ℚ) (sr : ℚ) (opts : Options) : Except String (List ℚ) :=
  if truthy (pyGet opts "speech_emphasis") then
    match coefOf opts sr with
    | Except.ok c => Except.ok (preemphasis audio c)
    | Except.error e => Except.error e
  else Except.ok audio

/-- Spec-side pipeline step: peak-normalize iff the `normalize` option is
truthy (written from the spec's words, for comparison with
`process_audio`). -/
def normalize_step (opts : Options) (audio : List ℚ) : List ℚ :=
  if truthy (pyGet opts "normalize") then normalize audio else audio

/-- Spec-side composition: emphasis step first, then normalization step, in
that fixed order. -/
def spec_pipeline (audio : List ℚ) (sr : ℚ) (opts : Options) : Except String (List ℚ) :=
  Except.map (normalize_step opts) (emphasis_step audio sr opts)

/-- What the file system and the decoding libraries do on a given path:
either they deliver a decoded buffer and sample rate, or opening the file
raises `FileNotFoundError`, or decoding raises some other exception. This
is the environment `read_audio` runs against. -/
inductive DecodeOutcome where
  | ok : List ℚ → ℚ → DecodeOutcome
  | fileNotFound : DecodeOutcome
  | failure : String → DecodeOutcome

/-- What `read_audio` returns (`src/spectrum.py:35,38,41`): either the
Python 2-tuple `(samples, sample_rate)` or Python `None`. -/
inductive ReadResult where
  | pynone : ReadResult
  | tup : List ℚ → ℚ → ReadResult
deriving DecidableEq

/-- Translation of `read_audio` (`src/spectrum.py:7-41`), parametrised by
the decode outcome `d` for the path `fp`. It returns the read result
together with the list of console messages it prints, in order. On success
it returns the `(samples, sample_rate)` tuple; on `FileNotFoundError` or
any other exception it prints an error message and returns `None`.
(Path resolution via `expanduser`/`abspath` is system state and is left as
the identity on `fp`.) -/
def read_audio (fp : String) (d : DecodeOutcome) : ReadResult × List String :=
  match d with
  | DecodeOutcome.ok samples sample_rate =>
      (ReadResult.tup samples sample_rate, ["Reading audio file from: " ++ fp])
  | DecodeOutcome.fileNotFound =>
      (ReadResult.pynone,
       ["Reading audio file from: " ++ fp,
        "Error: Audio file not found at " ++ fp])
  | DecodeOutcome.failure e =>
      (ReadResult.pynone,
       ["Reading audio file from: " ++ fp, "Error: " ++ e])

/-- Translation of the `.m4a` branch of `read_audio`
(`src/spectrum.py:23-30`): pydub decodes the container to 16-bit integer
samples (`get_array_of_samples` yields int16, whose `np.iinfo(...).max` is
32767), the segment is forced to one channel and resampled to 22050 Hz,
each integer sample is divided by 32767, and the returned sample rate is
the segment's frame rate, 22050. The argument is the decoded mono int16
sample list. -/
def read_audio_m4a (raw : List ℤ) : List ℚ × ℕ :=
  (raw.map (fun s => (s : ℚ) / 32767), 22050)

/-- Python `str.strip()` with no arguments: remove leading and trailing
whitespace characters. -/
def pyStrip (s : String) : String :=
  String.mk (((s.data.dropWhile Char.isWhitespace).reverse.dropWhile
    Char.isWhitespace).reverse)

/-- Translation of `get_user_input` (`src/spectrum.py:91-106`), run against
a stream of lines the user will type. Python `if user_input:` is string
truthiness, i.e. non-emptiness: the first non-empty line is returned with
leading and trailing whitespace stripped; each empty line is answered with
a `Please enter a value.` re-prompt. The result pairs the returned value
(`none` if the stream runs dry, where Python `input()` would raise
`EOFError`) with the number of re-prompts printed. -/
def get_user_input : List String → Option String × ℕ
  | [] => (none, 0)
  | line :: rest =>
      if line = "" then
        let r := get_user_input rest
        (r.1, r.2 + 1)
      else (some (pyStrip line), 0)

/-- A Python value bound to the variable `audio_data` in `main` after the
tuple unpacking succeeds: used to express the line-114 guard
`if audio_data is None` exactly as written. -/
inductive PyVal where
  | pynone : PyVal
  | arr : List ℚ → PyVal
deriving DecidableEq

/-- How a run of `main` ends after the call to `read_audio`
(`src/spectrum.py:113-137`): an uncaught exception, the early `return` of
the line-114 guard, or completion, in which `write_audio` is called with
the processed buffer, the sample rate and the output path. -/
inductive MainOutcome where
  | crash : String → MainOutcome
  | earlyReturn : MainOutcome
  | completed : List ℚ → ℚ → String → MainOutcome
deriving DecidableEq

/-- The hard-coded options dictionary of `main` (`src/spectrum.py:118-126`),
with `0.1 * sample_rate` written exactly as `sample_rate / 10`. -/
def main_options (sample_rate : ℚ) : Options :=
  [("noise_reduction", OptVal.pybool true),
   ("speech_emphasis", OptVal.pybool true),
   ("rolloff_freq", OptVal.pynum (sample_rate / 10)),
   ("bass_boost", OptVal.pynone),
   ("treble_boost", OptVal.pynone),
   ("normalize", OptVal.pybool true),
   ("compress", OptVal.pybool false)]

/-- Translation of `main` from the `read_audio` call onward
(`src/spectrum.py:113-137`). Line 113 unpacks the read result into
`audio_data, sample_rate`; unpacking Python `None` raises `TypeError`.
When unpacking succeeds, `audio_data` is the samples array and the
line-114 guard `if audio_data is None: return` is evaluated as written.
Then the buffer is processed and `write_audio` is called with the same
`sample_rate` variable that the unpacking bound. -/
def main_after_read (res : ReadResult) (output_filepath : String) : MainOutcome :=
  match res with
  | ReadResult.pynone =>
      MainOutcome.crash "TypeError: cannot unpack non-iterable NoneType object"
  | ReadResult.tup samples sample_rate =>
      -- audio_data = samples (an ndarray), sample_rate = sample_rate
      if PyVal.arr samples = PyVal.pynone then MainOutcome.earlyReturn
      else
        match process_audio samples sample_rate (main_options sample_rate) with
        | Except.ok processed =>
            MainOutcome.completed processed sample_rate output_filepath
        | Except.error e => MainOutcome.crash e

/-- Whether a `main` outcome reached the `write_audio` call (so an output
file gets created). -/
def callsWrite : MainOutcome → Bool
  | MainOutcome.completed _ _ _ => true
  | _ => false

/-- C1: For every input path on which reading fails (file missing or any
other decode exception), `read_audio` prints an error message and returns
the failure signal `None` instead of a `(samples, sample_rate)` tuple, and
the program run aborts without ever calling `write_audio`, so no output
file is created. -/
theorem c1_read_failure_reports_and_never_writes (fp e out : String) :
    read_audio fp DecodeOutcome.fileNotFound =
      (ReadResult.pynone,
       ["Reading audio file from: " ++ fp,
        "Error: Audio file not found at " ++ fp])
    ∧ read_audio fp (DecodeOutcome.failure e) =
      (ReadResult.pynone,
       ["Reading audio file from: " ++ fp, "Error: " ++ e])
    ∧ callsWrite (main_after_read (read_audio fp DecodeOutcome.fileNotFound).1 out)
        = false
    ∧ callsWrite (main_after_read (read_audio fp (DecodeOutcome.failure e)).1 out)
        = false := by
  refine ⟨rfl, rfl, rfl, rfl⟩

/-- C2: Whenever `read_audio` returns `None`, the tuple unpacking
`audio_data, sample_rate = read_audio(audio_filepath)` in `main` raises an
uncaught `TypeError`, so the guard `if audio_data is None: return` on the
following line is unreachable: no run of `main` ends in the graceful early
return, and a read failure ends the run by crash. -/
theorem c2_unpacking_none_crashes_and_guard_is_unreachable
    (out : String) (res : ReadResult) :
    main_after_read ReadResult.pynone out =
      MainOutcome.crash "TypeError: cannot unpack non-iterable NoneType object"
    ∧ main_after_read res out ≠ MainOutcome.earlyReturn := by
  constructor
  · rfl
  · cases res with
    | pynone => simp [main_after_read]
    | tup samples sr =>
        simp only [main_after_read]
        rw [if_neg (by simp)]
        cases process_audio samples sr (main_options sr) <;> simp

/-- C6: The sample rate is propagated unchanged from input to output: on a
successful read, the unpacked rate is the one `read_audio` returned, the
processed buffer is produced by `process_audio` (which pre-emphasizes and
normalizes the samples but never touches the rate), and `write_audio`
receives exactly that rate. -/
theorem c6_sample_rate_propagated_unchanged
    (fp out : String) (samples : List ℚ) (sr : ℚ) :
    main_after_read (read_audio fp (DecodeOutcome.ok samples sr)).1 out =
      MainOutcome.completed
        (normalize (preemphasis samples (sr / 10 / sr))) sr out := by
  rfl

/-- C3: `process_audio` equals the composition: apply pre-emphasis iff the
`speech_emphasis` option is truthy, then peak-normalize iff the `normalize`
option is truthy, in that fixed order; the result depends on the options
only through the `speech_emphasis`, `rolloff_freq` and `normalize` keys, so
every other option (`noise_reduction`, `bass_boost`, `treble_boost`,
`compress`) and every unknown or absent key has no effect on the returned
buffer; and with `speech_emphasis` and `normalize` disabled the input
buffer is returned unchanged. -/
theorem c3_process_audio_is_the_gated_pipeline
    (audio : List ℚ) (sr : ℚ) (opts : Options) :
    process_audio audio sr opts = spec_pipeline audio sr opts
    ∧ (∀ opts' : Options,
        pyGet opts' "speech_emphasis" = pyGet opts "speech_emphasis" →
        List.lookup "rolloff_freq" opts' = List.lookup "rolloff_freq" opts →
        pyGet opts' "normalize" = pyGet opts "normalize" →
        process_audio audio sr opts' = process_audio audio sr opts)
    ∧ (truthy (pyGet opts "speech_emphasis") = false →
       truthy (pyGet opts "normalize") = false →
       process_audio audio sr opts = Except.ok audio) := by
  refine ⟨?_, ?_, ?_⟩
  · unfold process_audio spec_pipeline emphasis_step normalize_step
    by_cases h : truthy (pyGet opts "speech_emphasis") = true
    · rw [if_pos h]
      cases coefOf opts sr <;> rfl
    · rw [if_neg h]
      rfl
  · intro opts' h1 h2 h3
    unfold process_audio coefOf pyGetD
    rw [h1, h2, h3]
  · intro h1 h2
    unfold process_audio
    rw [if_neg (by rw [h1]; exact Bool.false_ne_true)]
    show Except.ok (if truthy (pyGet opts "normalize") = true then normalize audio
      else audio) = Except.ok audio
    rw [if_neg (by rw [h2]; exact Bool.false_ne_true)]

/-- C3 witness: on a concrete buffer with the empty options mapping (both
steps disabled), `process_audio` returns the buffer unchanged. -/
theorem c3_witness :
    process_audio [1, 2] 44100 [] = Except.ok [1, 2] :=
  (c3_process_audio_is_the_gated_pipeline [1, 2] 44100 []).2.2 (by decide) (by decide)

/-- C4: the pre-emphasis coefficient computed for the filter equals
`rolloff_freq / sample_rate`, where the rolloff frequency defaults to
`0.1 * sample_rate` when the `rolloff_freq` key is absent; in particular a
rolloff frequency of `0.5 * sample_rate` yields coefficient `0.5`. -/
theorem c4_emphasis_coefficient (opts : Options) (sr rf : ℚ) :
    (List.lookup "rolloff_freq" opts = some (OptVal.pynum rf) →
      coefOf opts sr = Except.ok (rf / sr))
    ∧ (List.lookup "rolloff_freq" opts = none →
      coefOf opts sr = Except.ok (sr / 10 / sr))
    ∧ (sr ≠ 0 →
      coefOf [("rolloff_freq", OptVal.pynum (sr / 2))] sr = Except.ok (1 / 2)) := by
  refine ⟨?_, ?_, ?_⟩
  · intro h
    unfold coefOf pyGetD
    rw [h]
    rfl
  · intro h
    unfold coefOf pyGetD
    rw [h]
    rfl
  · intro h
    show Except.ok (sr / 2 / sr) = Except.ok (1 / 2)
    rw [div_div, mul_comm, ← div_div, div_self h]

/-- C4 witness: at sample rate 22050 with rolloff frequency half the sample
rate, the computed coefficient is one half. -/
theorem c4_witness :
    coefOf [("rolloff_freq", OptVal.pynum ((22050 : ℚ) / 2))] 22050 =
      Except.ok (1 / 2) :=
  (c4_emphasis_coefficient [("rolloff_freq", OptVal.pynum ((22050 : ℚ) / 2))]
    22050 0).2.2 (by norm_num)

/-- C9: pre-emphasis with coefficient 0 is the identity: for every buffer,
running the speech-emphasis step with a stored rolloff frequency of 0
(hence coefficient `0 / sample_rate = 0`) returns the buffer unchanged. -/
theorem c9_preemphasis_zero_is_identity (xs : List ℚ) (sr : ℚ) :
    preemphasis xs 0 = xs
    ∧ process_audio xs sr
        [("speech_emphasis", OptVal.pybool true), ("rolloff_freq", OptVal.pynum 0)]
      = Except.ok xs := by
  have key : ∀ (ys : List ℚ) (prev : ℚ),
      (ys.zip (prev :: ys)).map (fun p => p.1 - 0 * p.2) = ys := by
    intro ys
    induction ys with
    | nil => intro prev; rfl
    | cons a t ih =>
        intro prev
        rw [List.zip_cons_cons, List.map_cons, ih a]
        simp
  have hpre : preemphasis xs 0 = xs := key xs 0
  refine ⟨hpre, ?_⟩
  have hrun : process_audio xs sr
      [("speech_emphasis", OptVal.pybool true), ("rolloff_freq", OptVal.pynum 0)]
      = Except.ok (preemphasis xs (0 / sr)) := rfl
  rw [hrun, zero_div, hpre]

/-- C5 counterexample: the claim says every blank (whitespace-only) line is
rejected with a re-prompt and the returned string is never empty; but on a
stream whose first line is three spaces, `get_user_input` accepts it
immediately (zero re-prompts, because Python `if user_input:` only tests
non-emptiness) and returns the empty string after stripping. -/
theorem c5_counterexample :
    get_user_input ["   "] = (some "", 0) := by
  decide

/-- C5 as amended: `get_user_input` loops until the user supplies a
non-empty string; every empty line is rejected with a re-prompt, and the
value returned is the first non-empty input with leading and trailing
whitespace removed (which is the empty string when that input was
whitespace-only). -/
theorem c5_first_nonempty_line_stripped
    (pre : List String) (s : String) (rest : List String)
    (hpre : ∀ p ∈ pre, p = "") (hs : s ≠ "") :
    get_user_input (pre ++ s :: rest) = (some (pyStrip s), pre.length) := by
  induction pre with
  | nil =>
      simp only [List.nil_append, List.length_nil]
      unfold get_user_input
      rw [if_neg hs]
  | cons p t ih =>
      have hp : p = "" := hpre p (List.mem_cons_self p t)
      have ht : ∀ q ∈ t, q = "" := fun q hq => hpre q (List.mem_cons_of_mem p hq)
      simp only [List.cons_append, List.length_cons]
      unfold get_user_input
      rw [if_pos hp, ih ht]

/-- C5 witness: one empty line then `"  done  "` yields the stripped value
`"done"` after exactly one re-prompt. -/
theorem c5_witness :
    get_user_input ["", "  done  "] = (some "done", 1) := by
  have h := c5_first_nonempty_line_stripped [""] "  done  " []
    (by intro p hp; simpa using hp) (by decide)
  simp only [List.cons_append, List.nil_append, List.length_cons,
    List.length_nil] at h
  rw [h]
  decide

/-- Peak of a buffer is nonnegative. -/
lemma peak_nonneg (xs : List ℚ) : 0 ≤ peak xs := by
  induction xs with
  | nil => exact le_refl 0
  | cons a t ih => exact le_trans ih (le_max_right _ _)

/-- Dividing every sample by a nonnegative constant divides the peak. -/
lemma peak_map_div (xs : List ℚ) {c : ℚ} (hc : 0 ≤ c) :
    peak (xs.map (fun x => x / c)) = peak xs / c := by
  induction xs with
  | nil => simp [peak, zero_div]
  | cons a t ih =>
      show max |a / c| (peak (t.map (fun x => x / c))) = max |a| (peak t) / c
      rw [ih, abs_div, abs_of_nonneg hc, max_div_div_right hc]

/-- C7 counterexample: the claim says normalization rescales every buffer
so that its maximum absolute sample equals 1.0; but the all-zero buffer
`[0]` passes through `process_audio` with `normalize` enabled unchanged,
and its maximum absolute sample is 0, not 1. -/
theorem c7_counterexample :
    process_audio [0] 22050 [("normalize", OptVal.pybool true)] = Except.ok [0]
    ∧ peak [0] = 0 := by
  constructor
  · show Except.ok (normalize [0]) = Except.ok [0]
    rw [show normalize [0] = [0] from by norm_num [normalize, peak]]
  · norm_num [peak]

/-- C7 as amended: for every buffer with a nonzero sample (nonzero peak)
passed through `process_audio` with the `normalize` option enabled (and
`speech_emphasis` disabled, isolating the normalization step), the result
is the peak-normalized buffer, whose maximum absolute sample equals 1.0;
a buffer whose peak is zero is returned unchanged. -/
theorem c7_normalize_rescales_nonzero_peak_to_one
    (xs : List ℚ) (sr : ℚ) (opts : Options)
    (hnorm : truthy (pyGet opts "normalize") = true)
    (hsp : truthy (pyGet opts "speech_emphasis") = false)
    (hx : peak xs ≠ 0) :
    process_audio xs sr opts = Except.ok (normalize xs)
    ∧ peak (normalize xs) = 1 := by
  constructor
  · unfold process_audio
    rw [if_neg (by rw [hsp]; exact Bool.false_ne_true)]
    show Except.ok (if truthy (pyGet opts "normalize") = true then normalize xs
      else xs) = Except.ok (normalize xs)
    rw [if_pos hnorm]
  · show peak (xs.map (fun x => x / peak xs)) = 1
    rw [peak_map_div xs (peak_nonneg xs), div_self hx]

/-- C7 witness: the buffer `[2]` with `normalize` enabled comes out
peak-normalized with maximum absolute sample 1. -/
theorem c7_witness :
    process_audio [2] 22050 [("normalize", OptVal.pybool true)] =
      Except.ok (normalize [2])
    ∧ peak (normalize [2]) = 1 :=
  c7_normalize_rescales_nonzero_peak_to_one [2] 22050
    [("normalize", OptVal.pybool true)] (by decide) (by decide) (by norm_num [peak])

/-- C8: peak normalization is idempotent at its fixed point: a buffer whose
maximum absolute sample is already 1.0 is returned unchanged by the
normalization step, so applying it twice equals applying it once. -/
theorem c8_normalize_fixed_point (xs : List ℚ) (h : peak xs = 1) :
    normalize xs = xs ∧ normalize (normalize xs) = normalize xs := by
  have h1 : normalize xs = xs := by
    unfold normalize
    rw [h]
    simp [div_one]
  exact ⟨h1, by rw [h1]; exact h1⟩

/-- C8 witness: the buffer `[1]` has peak 1 and is a fixed point of
normalization. -/
theorem c8_witness :
    normalize [1] = [1] ∧ normalize (normalize [1]) = normalize [1] :=
  c8_normalize_fixed_point [1] (by norm_num [peak])

/-- C10, evaluated at the failing input: a single full-scale negative
16-bit sample, `-32768`, read through the `.m4a` branch, is divided by the
int16 maximum 32767 and comes out as `-32768/32767 < -1`, outside the
`[-1, 1]` range that both the claim and the code's own comment
(`# Normalize to -1 to 1`) promise; the returned sample rate is 22050 as
claimed. -/
theorem c10_full_scale_negative_sample_escapes_range :
    read_audio_m4a [-32768] = ([-(32768 : ℚ) / 32767], 22050)
    ∧ (-(32768 : ℚ) / 32767) < -1 := by
  constructor
  · rfl
  · norm_num

end Spectrum
